import Mathlib

/-!
Shallow embedding of the core of `whatsapp-go-mcp`: the streaming agent-turn
consumer (`generateAgentResponse`), the voice-message pipeline
(`processVoiceMessage` with its download / transcribe / agent / TTS / delivery
stages), the inbound-event classifier (`handleMessage`), the message store
(`StoreMessage`, an `INSERT OR REPLACE` keyed by the unique `message_id`
column), and the outbound audio sender (`SendAudioMessage` with its bounded
upload retry and duration estimation).  External collaborators (the WhatsApp
session, the SQL driver, the external processes curl / ffmpeg / ffprobe /
whisper and the remote agent service) are modelled as explicit environments;
every branch of the Go control flow is mirrored by a branch of the Lean
definitions.
-/

namespace WhatsAppMCP

/-! ## Agent turn consumer (`generateAgentResponse`, src/whatsapp/client.go)

A streamed chunk carries an optional explicit error field
(`chunk.JSON.ExtraFields["error"]`) and an event payload.  Only the fields the
Go consumer reads are modelled: the event type, the turn id (logged only), the
step details with step type, model-response role and content, and the
step-progress delta (logged only). -/

structure ContentItem where
  text : String
deriving DecidableEq

/-- `step.ModelResponse`: role, plain string content (`Content.OfString`) and
structured content list (`Content.OfInterleavedContentItemArray`). -/
structure ModelResponse where
  role : String
  ofString : String
  items : List ContentItem
deriving DecidableEq

structure StepDetails where
  stepType : String
  stepID : String
  modelResponse : ModelResponse
deriving DecidableEq

/-- `event.Payload.Delta` of a `step_progress` event; the Go code only logs it. -/
structure ProgressDelta where
  type : String
  text : String
  toolName : String
deriving DecidableEq

structure EventPayload where
  eventType : String
  turnID : String
  stepDetails : StepDetails
  delta : ProgressDelta
deriving DecidableEq

/-- One chunk of the streaming turn: optional explicit error field plus the
event payload. -/
structure Chunk where
  error : Option String
  payload : EventPayload
deriving DecidableEq

/-- The update the loop body applies to `finalResponse` when it sees a
`step_complete` chunk of an inference step whose role is `"assistant"`:
the plain string content if non-empty, otherwise the first non-empty item of
the structured content list, otherwise no change. -/
def extractContent (r : ModelResponse) : Option String :=
  if r.ofString ≠ "" then some r.ofString
  else
    match r.items.find? (fun it => it.text != "") with
    | some it => some it.text
    | none => none

/-- Effect of one non-terminal chunk on the captured `finalResponse`.
`turn_start`, `step_progress` and tool-execution `step_complete` chunks are
logged only and leave it unchanged. -/
def stepUpdate (finalResponse : String) (ch : Chunk) : String :=
  if ch.payload.eventType = "step_complete" then
    let step := ch.payload.stepDetails
    if step.stepType = "inference" ∧ step.modelResponse.role = "assistant" then
      match extractContent step.modelResponse with
      | some c => c
      | none => finalResponse
    else finalResponse
  else finalResponse

/-- How the `for stream.Next()` loop terminated. -/
inductive LoopExit where
  | errorBreak (msg : String)
  | turnCompleteExit (finalResponse : String)
  | exhausted (finalResponse : String)
deriving DecidableEq

/-- The consumption loop: a chunk with an explicit error field breaks
immediately; a `turn_complete` chunk jumps to `streamComplete`; every other
chunk updates the captured candidate via `stepUpdate` and consumption
continues; an exhausted stream falls out of the loop. -/
def consumeChunks : List Chunk → String → LoopExit
  | [], finalResponse => .exhausted finalResponse
  | ch :: rest, finalResponse =>
    match ch.error with
    | some e => .errorBreak ("Agent error: " ++ e)
    | none =>
      if ch.payload.eventType = "turn_complete" then .turnCompleteExit finalResponse
      else consumeChunks rest (stepUpdate finalResponse ch)

/-- `generateAgentResponse`, given the chunks the stream yields and the value
`stream.Err()` reports once the stream is exhausted (`none` for a clean end).
After the loop the Go code checks `stream.Err()` first (only observable when
the loop consumed the whole stream), then the explicit chunk error, then
rejects an empty candidate. -/
def generateAgentResponse (chunks : List Chunk) (transportErr : Option String) :
    Except String String :=
  match consumeChunks chunks "" with
  | .errorBreak msg => .error msg
  | .turnCompleteExit f =>
      if f = "" then .error "no response received from agent" else .ok f
  | .exhausted f =>
      match transportErr with
      | some e => .error ("streaming error: " ++ e)
      | none =>
        if f = "" then .error "no response received from agent" else .ok f

/-- The answer candidate captured after processing a list of chunks without a
terminal event. -/
def candidateAfter (chunks : List Chunk) : String :=
  chunks.foldl stepUpdate ""

/-- A chunk that neither carries an explicit error nor terminates the turn. -/
def cleanChunk (ch : Chunk) : Prop :=
  ch.error = none ∧ ch.payload.eventType ≠ "turn_complete"

instance (ch : Chunk) : Decidable (cleanChunk ch) := by
  unfold cleanChunk
  infer_instance

/-- A chunk the spec says never contributes to the answer: a `step_progress`
delta or a tool-execution `step_complete`. -/
def nonContributing (ch : Chunk) : Prop :=
  ch.payload.eventType = "step_progress" ∨
    (ch.payload.eventType = "step_complete" ∧
      ch.payload.stepDetails.stepType = "tool_execution")

instance (ch : Chunk) : Decidable (nonContributing ch) := by
  unfold nonContributing
  infer_instance

/-! ## Voice pipeline (`processVoiceMessage`, src/whatsapp/client.go)

The pipeline is embedded as a trace-producing function: the environment fixes
the outcome of every external call (the WhatsApp media download, the two file
operations of `downloadVoiceMessage`, the transcription, the agent turn, the
curl and ffmpeg invocations of `generateSpeechWithLocalService`, and the
outbound send), and the function returns the ordered list of observable
actions the Go code performs on that environment, including every file
creation and every `os.Remove` (deferred removals appear at the position the
Go runtime executes them: function exit, LIFO). -/

inductive PAction where
  | setRecordingPresence
  | clearPresence
  | sendText (message : String)
  | sendAudio (path : String)
  | createFile (path : String)
  | removeFile (path : String)
deriving DecidableEq

/-- Outcomes of the external calls of one voice-pipeline run.
`audioPath` is the generated `voice_<id>_<timestamp>.ogg` name and
`outputPath` the generated `tts_<unix>.ogg` name. -/
structure VoiceEnv where
  fetchOk : Bool
  createOk : Bool
  writeOk : Bool
  audioPath : String
  transcribe : Except String String
  agent : Except String String
  outputPath : String
  curlWav : Option Nat
  ffmpegOk : Bool
  sendOk : Bool

/-- `downloadVoiceMessage`: fetch the media, create the target file, write the
bytes.  A failing write still leaves the created file on disk — the function
returns an error and its caller never registers the deferred removal. -/
def downloadVoiceMessage (env : VoiceEnv) : List PAction × Except String String :=
  if env.fetchOk = false then ([], .error "failed to download media")
  else if env.createOk = false then ([], .error "failed to create file")
  else if env.writeOk = false then
    ([PAction.createFile env.audioPath], .error "failed to write file")
  else ([PAction.createFile env.audioPath], .ok env.audioPath)

/-- `generateSpeechWithLocalService`: curl writes `outputPath ++ ".wav"`
(`env.curlWav = some n` means the command succeeded leaving an `n`-byte file),
the result is rejected when absent or empty, ffmpeg transcodes it to
`outputPath`, and the deferred `os.Remove` of the intermediate WAV runs on
every exit.  A failing external command is modelled as producing no file. -/
def generateSpeechWithLocalService (env : VoiceEnv) (outputPath : String) :
    List PAction × Bool :=
  let tempWavPath := outputPath ++ ".wav"
  match env.curlWav with
  | none => ([PAction.removeFile tempWavPath], false)
  | some 0 => ([PAction.createFile tempWavPath, PAction.removeFile tempWavPath], false)
  | some (_ + 1) =>
    if env.ffmpegOk then
      ([PAction.createFile tempWavPath, PAction.createFile outputPath,
        PAction.removeFile tempWavPath], true)
    else ([PAction.createFile tempWavPath, PAction.removeFile tempWavPath], false)

/-- `textToSpeech`: generate into the fresh `outputPath` and surface failure. -/
def textToSpeech (env : VoiceEnv) : List PAction × Except String String :=
  let gen := generateSpeechWithLocalService env env.outputPath
  if gen.2 then (gen.1, .ok env.outputPath)
  else (gen.1, .error "text-to-speech conversion failed")

def downloadFallbackText : String :=
  "Sorry, I couldn\x27t download your voice message. Please try again."

def transcribeFallbackText : String :=
  "Sorry, I couldn\x27t understand your voice message. Please try speaking more clearly."

def agentFallbackText : String :=
  "Sorry, I\x27m having trouble processing your request right now. Please try again later."

/-- The unconditional debug echo of step 6. -/
def debugEchoText (transcribedText responseText : String) : String :=
  "🔍 DEBUG - Transcribed: \"" ++ transcribedText ++ "\"\n\n🤖 AI Response: \""
    ++ responseText ++ "\""

/-- `processVoiceMessage`: presence, download, transcription, agent turn,
synthesis, delivery, debug echo, clear presence; each failure branch clears
presence, sends its fallback text and returns, at which point the deferred
removals registered so far run (LIFO).  `PAction.sendAudio` marks the
invocation of `SendAudioMessage` (modelled in detail separately). -/
def processVoiceMessage (env : VoiceEnv) : List PAction :=
  let dl := downloadVoiceMessage env
  PAction.setRecordingPresence ::
    (dl.1 ++
      match dl.2 with
      | .error _ => [PAction.clearPresence, PAction.sendText downloadFallbackText]
      | .ok audioFilePath =>
        match env.transcribe with
        | .error _ =>
          [PAction.clearPresence, PAction.sendText transcribeFallbackText,
           PAction.removeFile audioFilePath]
        | .ok transcribedText =>
          match env.agent with
          | .error _ =>
            [PAction.clearPresence, PAction.sendText agentFallbackText,
             PAction.removeFile audioFilePath]
          | .ok responseText =>
            let tts := textToSpeech env
            tts.1 ++
              match tts.2 with
              | .error _ =>
                [PAction.clearPresence, PAction.sendText responseText,
                 PAction.removeFile audioFilePath]
              | .ok responseAudioPath =>
                if env.sendOk then
                  [PAction.sendAudio responseAudioPath,
                   PAction.sendText (debugEchoText transcribedText responseText),
                   PAction.clearPresence,
                   PAction.removeFile responseAudioPath,
                   PAction.removeFile audioFilePath]
                else
                  [PAction.sendAudio responseAudioPath,
                   PAction.clearPresence, PAction.sendText responseText,
                   PAction.removeFile responseAudioPath,
                   PAction.removeFile audioFilePath])

/-- Filesystem effect of one action: `createFile` adds the path,
`removeFile` deletes it, everything else leaves the filesystem alone. -/
def applyAction (fs : List String) : PAction → List String
  | PAction.createFile p => if p ∈ fs then fs else p :: fs
  | PAction.removeFile p => fs.filter (fun q => q != p)
  | _ => fs

/-- The filesystem after running a trace. -/
def runFs (fs : List String) (trace : List PAction) : List String :=
  trace.foldl applyAction fs

/-- Chat-presence indicator as the other party sees it. -/
inductive PresenceState where
  | recording
  | cleared
  | idle
deriving DecidableEq

def presenceStep (s : PresenceState) : PAction → PresenceState
  | PAction.setRecordingPresence => .recording
  | PAction.clearPresence => .cleared
  | _ => s

/-- Presence state after a trace, from an arbitrary starting state. -/
def presenceAfter (s : PresenceState) (trace : List PAction) : PresenceState :=
  trace.foldl presenceStep s

/-- `true` iff the trace contains no invocation of the audio sender. -/
def noAudioDelivery (trace : List PAction) : Bool :=
  trace.all (fun a => match a with | PAction.sendAudio _ => false | _ => true)

/-! ## Event classifier (`handleMessage`, src/whatsapp/client.go)

The inbound protobuf message is modelled with the zero-value semantics of the
Go getters: `GetConversation` yields `""` when absent, the other payloads are
`nil`-able submessages. -/

structure ExtendedTextMessage where
  text : String
deriving DecidableEq

structure ImageMessage where
  caption : String
deriving DecidableEq

structure VideoMessage where
  caption : String
deriving DecidableEq

structure AudioMessage where
  ptt : Bool
  seconds : Nat
  mimetype : String
deriving DecidableEq

structure DocumentMessage where
  caption : String
  fileName : String
deriving DecidableEq

structure WAMessage where
  conversation : String
  extendedTextMessage : Option ExtendedTextMessage
  imageMessage : Option ImageMessage
  videoMessage : Option VideoMessage
  audioMessage : Option AudioMessage
  documentMessage : Option DocumentMessage
deriving DecidableEq

/-- `evt.Info` — the fields the handlers copy into the stored record. -/
structure MessageInfo where
  timestamp : Nat
  sender : String
  chat : String
  id : String
  isFromMe : Bool
deriving DecidableEq

/-- `models.Message` as persisted by the handlers and senders. -/
structure StoredMessage where
  time : Nat
  sender : String
  content : String
  isFromMe : Bool
  mediaType : String
  filename : String
  chatJID : String
  messageID : String
deriving DecidableEq

inductive Branch where
  | text
  | extendedText
  | image
  | video
  | audio
  | document
  | unknown
deriving DecidableEq

/-- `strings.ToUpper(messageType[:1]) + messageType[1:]`: uppercase the first
character, keep the rest. -/
def capitalizeFirst (s : String) : String :=
  match s.data with
  | [] => s
  | c :: cs => String.mk (Char.toUpper c :: cs)

/-- Content label of `handleAudioMessage`:
`fmt.Sprintf("[%s Message]", strings.ToUpper(messageType[:1])+messageType[1:])`. -/
def audioContentLabel (messageType : String) : String :=
  "[" ++ capitalizeFirst messageType ++ " Message]"

/-- `handleMessage`: the if/else chain routing one inbound event to exactly one
typed handler, together with the `models.Message` that handler stores. -/
def handleMessage (info : MessageInfo) (msg : WAMessage) : Branch × StoredMessage :=
  if msg.conversation ≠ "" then
    (.text,
     { time := info.timestamp, sender := info.sender, content := msg.conversation,
       isFromMe := info.isFromMe, mediaType := "text", filename := "",
       chatJID := info.chat, messageID := info.id })
  else
    match msg.extendedTextMessage with
    | some ext =>
      (.extendedText,
       { time := info.timestamp, sender := info.sender, content := ext.text,
         isFromMe := info.isFromMe, mediaType := "text", filename := "",
         chatJID := info.chat, messageID := info.id })
    | none =>
      match msg.imageMessage with
      | some im =>
        (.image,
         { time := info.timestamp, sender := info.sender, content := im.caption,
           isFromMe := info.isFromMe, mediaType := "image", filename := "",
           chatJID := info.chat, messageID := info.id })
      | none =>
        match msg.videoMessage with
        | some v =>
          (.video,
           { time := info.timestamp, sender := info.sender, content := v.caption,
             isFromMe := info.isFromMe, mediaType := "video", filename := "",
             chatJID := info.chat, messageID := info.id })
        | none =>
          match msg.audioMessage with
          | some a =>
            let messageType := if a.ptt then "voice" else "audio"
            (.audio,
             { time := info.timestamp, sender := info.sender,
               content := audioContentLabel messageType,
               isFromMe := info.isFromMe, mediaType := messageType, filename := "",
               chatJID := info.chat, messageID := info.id })
          | none =>
            match msg.documentMessage with
            | some d =>
              (.document,
               { time := info.timestamp, sender := info.sender, content := d.caption,
                 isFromMe := info.isFromMe, mediaType := "document",
                 filename := d.fileName, chatJID := info.chat, messageID := info.id })
            | none =>
              (.unknown,
               { time := info.timestamp, sender := info.sender,
                 content := "[Unknown Message Type]",
                 isFromMe := info.isFromMe, mediaType := "unknown", filename := "",
                 chatJID := info.chat, messageID := info.id })

/-! ## Message store (`StoreMessage`, models package)

The `messages` table declares `message_id TEXT UNIQUE NOT NULL`;
`StoreMessage` runs `INSERT OR REPLACE`, so the SQLite conflict resolution
deletes any row with the same `message_id` before inserting the new one. -/

def StoreMessage (tbl : List StoredMessage) (msg : StoredMessage) : List StoredMessage :=
  tbl.filter (fun r => r.messageID != msg.messageID) ++ [msg]

/-! ## Outbound audio sender (`SendAudioMessage`, src/whatsapp/client.go)

Modelled as a trace-producing function over an environment fixing the
connection check, JID parse, the three file operations, the ffprobe result,
the per-attempt upload outcome and the send outcome. -/

inductive SAction where
  | uploadAttempt (attempt : Nat)
  | sleepSeconds (seconds : Nat)
  | sendVoiceMessage (durationSeconds : ℚ)
  | storeSentMessage (content mediaType : String)
  | updateChat (lastMessage : String)
deriving DecidableEq

structure SendEnv where
  ensureConnected : Bool
  validJid : Bool
  openOk : Bool
  statOk : Bool
  readOk : Bool
  fileSize : Nat
  probe : Option ℚ
  uploadOk : Nat → Bool
  sendOk : Bool
  storeOk : Bool
  time : Nat
  selfJid : String
  recipient : String
  responseId : String
  fileBase : String

/-- Duration fallback when ffprobe fails:
`estimatedDuration := float64(fileInfo.Size()) / 16000.0; if < 1 { 1 }`,
with the division taken exactly over ℚ. -/
def estimatedDuration (sizeBytes : Nat) : ℚ :=
  let e : ℚ := (sizeBytes : ℚ) / 16000
  if e < 1 then 1 else e

/-- The duration `SendAudioMessage` puts on the outbound voice message:
the ffprobe result, or the size-based estimate when the probe fails. -/
def sendDuration (env : SendEnv) : ℚ :=
  match env.probe with
  | some d => d
  | none => estimatedDuration env.fileSize

/-- The retry loop `for attempt := 1; attempt <= maxRetries; attempt++`:
try the upload, stop at the first success, otherwise sleep 2 seconds unless
this was the last attempt.  `remaining` counts the attempts still allowed. -/
def uploadLoopAux (up : Nat → Bool) (attempt : Nat) : Nat → List SAction × Bool
  | 0 => ([], false)
  | remaining + 1 =>
    if up attempt then ([SAction.uploadAttempt attempt], true)
    else if remaining = 0 then ([SAction.uploadAttempt attempt], false)
    else
      let rest := uploadLoopAux up (attempt + 1) remaining
      (SAction.uploadAttempt attempt :: SAction.sleepSeconds 2 :: rest.1, rest.2)

/-- The upload phase with `maxRetries = 3`. -/
def uploadWithRetry (up : Nat → Bool) : List SAction × Bool :=
  uploadLoopAux up 1 3

/-- The record `SendAudioMessage` stores after a successful send. -/
def sentAudioRecord (env : SendEnv) : StoredMessage :=
  { time := env.time, sender := env.selfJid, content := "[Voice Message]",
    isFromMe := true, mediaType := "voice", filename := env.fileBase,
    chatJID := env.recipient, messageID := env.responseId }

structure SendOutcome where
  err : Option String
  trace : List SAction
  table : List StoredMessage

/-- `SendAudioMessage`: connection check, JID parse, open/stat/read the file,
compute the duration, upload with retry, send, and only after a successful
send store the from-me record (best effort) and update the chat summary. -/
def SendAudioMessage (env : SendEnv) (tbl : List StoredMessage) : SendOutcome :=
  if env.ensureConnected = false then ⟨some "failed to ensure connection", [], tbl⟩
  else if env.validJid = false then ⟨some "invalid recipient JID", [], tbl⟩
  else if env.openOk = false then ⟨some "failed to open file", [], tbl⟩
  else if env.statOk = false then ⟨some "failed to get file info", [], tbl⟩
  else if env.readOk = false then ⟨some "failed to read file", [], tbl⟩
  else
    let duration := sendDuration env
    let upload := uploadWithRetry env.uploadOk
    if upload.2 = false then
      ⟨some "failed to upload audio file after 3 attempts", upload.1, tbl⟩
    else if env.sendOk = false then
      ⟨some "failed to send audio message",
       upload.1 ++ [SAction.sendVoiceMessage duration], tbl⟩
    else
      ⟨none,
       upload.1 ++
         [SAction.sendVoiceMessage duration,
          SAction.storeSentMessage "[Voice Message]" "voice",
          SAction.updateChat "[Voice Message]"],
       if env.storeOk then StoreMessage tbl (sentAudioRecord env) else tbl⟩

/-- Actions that persist something into the store. -/
def isPersistAction : SAction → Bool
  | SAction.storeSentMessage _ _ => true
  | SAction.updateChat _ => true
  | _ => false

/-- Number of upload attempts in a trace. -/
def countUploads (trace : List SAction) : Nat :=
  trace.countP (fun a => match a with | SAction.uploadAttempt _ => true | _ => false)

/-- Total enforced delay (in seconds) in a trace. -/
def totalSleep (trace : List SAction) : Nat :=
  (trace.map (fun a => match a with | SAction.sleepSeconds n => n | _ => 0)).sum

/-! ## Concrete sample inputs -/

def emptyDelta : ProgressDelta :=
  { type := "", text := "", toolName := "" }

def mkPayload (eventType : String) (step : StepDetails) : EventPayload :=
  { eventType := eventType, turnID := "", stepDetails := step, delta := emptyDelta }

def assistantStep (s : String) : StepDetails :=
  { stepType := "inference", stepID := "s1",
    modelResponse := { role := "assistant", ofString := s, items := [] } }

/-- A `step_complete` chunk of an assistant inference step with plain content. -/
def assistantChunk (s : String) : Chunk :=
  { error := none, payload := mkPayload "step_complete" (assistantStep s) }

/-- A tool-execution `step_complete` chunk. -/
def toolChunk : Chunk :=
  { error := none,
    payload := mkPayload "step_complete"
      { stepType := "tool_execution", stepID := "s2",
        modelResponse := { role := "", ofString := "ignored", items := [] } } }

/-- A `step_progress` chunk with a partial-text delta. -/
def progressChunk : Chunk :=
  { error := none,
    payload :=
      { eventType := "step_progress", turnID := "",
        stepDetails := assistantStep "",
        delta := { type := "text", text := "par", toolName := "" } } }

def turnStartChunk : Chunk :=
  { error := none,
    payload :=
      { eventType := "turn_start", turnID := "turn-1",
        stepDetails := assistantStep "", delta := emptyDelta } }

def turnCompleteChunk : Chunk :=
  { error := none, payload := mkPayload "turn_complete" (assistantStep "") }

/-- Voice-pipeline environment whose media fetch fails. -/
def envDownloadFail : VoiceEnv :=
  { fetchOk := false, createOk := true, writeOk := true, audioPath := "voice_1.ogg",
    transcribe := .ok "t", agent := .ok "r", outputPath := "tts_1.ogg",
    curlWav := some 1, ffmpegOk := true, sendOk := true }

/-- Voice-pipeline environment where the downloaded file is created but the
write of its bytes fails. -/
def envWriteFail : VoiceEnv :=
  { fetchOk := true, createOk := true, writeOk := false, audioPath := "voice_1.ogg",
    transcribe := .ok "t", agent := .ok "r", outputPath := "tts_1.ogg",
    curlWav := some 1, ffmpegOk := true, sendOk := true }

/-- Voice-pipeline environment where everything up to the agent turn succeeds
and speech synthesis fails (the TTS service call produces no audio). -/
def envTtsFail : VoiceEnv :=
  { fetchOk := true, createOk := true, writeOk := true, audioPath := "voice_1.ogg",
    transcribe := .ok "hello there", agent := .ok "the answer",
    outputPath := "tts_1.ogg", curlWav := none, ffmpegOk := true, sendOk := true }

/-- Sender environment whose uploader fails on every attempt. -/
def sendEnvUploadFail : SendEnv :=
  { ensureConnected := true, validJid := true, openOk := true, statOk := true,
    readOk := true, fileSize := 24000, probe := none, uploadOk := fun _ => false,
    sendOk := true, storeOk := true, time := 7, selfJid := "me@s.whatsapp.net",
    recipient := "peer@s.whatsapp.net", responseId := "MSG9", fileBase := "tts_1.ogg" }

/-- Sender environment with an unparsable recipient JID. -/
def sendEnvBadJid : SendEnv :=
  { ensureConnected := true, validJid := false, openOk := true, statOk := true,
    readOk := true, fileSize := 5, probe := some 2, uploadOk := fun _ => true,
    sendOk := true, storeOk := true, time := 7, selfJid := "me@s.whatsapp.net",
    recipient := "not-a-jid", responseId := "MSG9", fileBase := "tts_1.ogg" }

/-- Sender environment whose ffprobe call fails. -/
def sendEnvNoProbe : SendEnv :=
  { ensureConnected := true, validJid := true, openOk := true, statOk := true,
    readOk := true, fileSize := 40000, probe := none, uploadOk := fun _ => true,
    sendOk := true, storeOk := true, time := 7, selfJid := "me@s.whatsapp.net",
    recipient := "peer@s.whatsapp.net", responseId := "MSG9", fileBase := "tts_1.ogg" }

def sampleOldMessage : StoredMessage :=
  { time := 0, sender := "bob@s.whatsapp.net", content := "zero", isFromMe := false,
    mediaType := "text", filename := "", chatJID := "chat1", messageID := "MID0" }

def sampleMessageA : StoredMessage :=
  { time := 1, sender := "alice@s.whatsapp.net", content := "first delivery",
    isFromMe := false, mediaType := "text", filename := "", chatJID := "chat1",
    messageID := "MID1" }

def sampleMessageB : StoredMessage :=
  { time := 2, sender := "alice@s.whatsapp.net", content := "second delivery",
    isFromMe := false, mediaType := "text", filename := "", chatJID := "chat1",
    messageID := "MID1" }

def sampleInfo : MessageInfo :=
  { timestamp := 10, sender := "alice@s.whatsapp.net", chat := "chat1",
    id := "MID1", isFromMe := false }

/-- A PTT voice note event payload. -/
def sampleVoiceMsg : WAMessage :=
  { conversation := "", extendedTextMessage := none, imageMessage := none,
    videoMessage := none,
    audioMessage := some { ptt := true, seconds := 3, mimetype := "audio/ogg" },
    documentMessage := none }

/-! ## Lemmas about the turn consumer -/

theorem stepUpdate_of_nonContributing (ch : Chunk) (h : nonContributing ch)
    (f : String) : stepUpdate f ch = f := by
  rcases h with h | ⟨h1, h2⟩
  · simp [stepUpdate, h]
  · simp [stepUpdate, h1, h2]

theorem nonContributing_not_terminal (ch : Chunk) (h : nonContributing ch) :
    ch.payload.eventType ≠ "turn_complete" := by
  rcases h with h | ⟨h, _⟩ <;> simp [h]

theorem foldl_stepUpdate_const (l : List Chunk) (h : ∀ ch ∈ l, nonContributing ch)
    (f : String) : l.foldl stepUpdate f = f := by
  induction l generalizing f with
  | nil => rfl
  | cons ch tl ih =>
    rw [List.foldl_cons, stepUpdate_of_nonContributing ch (h ch (by simp)) f]
    exact ih (fun x hx => h x (by simp [hx])) f

theorem extractContent_ne_empty (r : ModelResponse) (c : String)
    (h : extractContent r = some c) : c ≠ "" := by
  unfold extractContent at h
  split_ifs at h with hs
  · cases h
    exact hs
  · cases hfind : r.items.find? (fun it => it.text != "") with
    | none => rw [hfind] at h; cases h
    | some it =>
      rw [hfind] at h
      cases h
      have := List.find?_some hfind
      simpa using this

theorem consumeChunks_append (pre rest : List Chunk)
    (h : ∀ ch ∈ pre, cleanChunk ch) (f : String) :
    consumeChunks (pre ++ rest) f = consumeChunks rest (pre.foldl stepUpdate f) := by
  induction pre generalizing f with
  | nil => rfl
  | cons ch tl ih =>
    obtain ⟨herr, hty⟩ := h ch (by simp)
    simp only [List.cons_append, consumeChunks, herr, List.foldl_cons]
    rw [if_neg hty]
    exact ih (fun x hx => h x (by simp [hx])) (stepUpdate f ch)

theorem consumeChunks_clean (l : List Chunk) (h : ∀ ch ∈ l, cleanChunk ch)
    (f : String) : consumeChunks l f = .exhausted (l.foldl stepUpdate f) := by
  have := consumeChunks_append l [] h f
  rwa [List.append_nil] at this

theorem consumeChunks_skip (pre post : List Chunk) (ch : Chunk) (f : String)
    (herr : ch.error = none) (hnc : nonContributing ch) :
    consumeChunks (pre ++ ch :: post) f = consumeChunks (pre ++ post) f := by
  induction pre generalizing f with
  | nil =>
    simp only [List.nil_append, consumeChunks, herr]
    rw [if_neg (nonContributing_not_terminal ch hnc),
      stepUpdate_of_nonContributing ch hnc f]
  | cons hd tl ih =>
    cases he : hd.error with
    | some e => simp [consumeChunks, he]
    | none =>
      by_cases hty : hd.payload.eventType = "turn_complete"
      · simp [consumeChunks, he, hty]
      · simp only [List.cons_append, consumeChunks, he]
        rw [if_neg hty, if_neg hty]
        exact ih (stepUpdate f hd)

theorem gar_of_errorBreak (chunks : List Chunk) (terr : Option String)
    (msg : String) (h : consumeChunks chunks "" = .errorBreak msg) :
    generateAgentResponse chunks terr = .error msg := by
  unfold generateAgentResponse
  rw [h]

theorem gar_of_turnComplete (chunks : List Chunk) (terr : Option String)
    (f : String) (h : consumeChunks chunks "" = .turnCompleteExit f) :
    generateAgentResponse chunks terr =
      (if f = "" then .error "no response received from agent" else .ok f) := by
  unfold generateAgentResponse
  rw [h]

theorem gar_of_exhausted_some (chunks : List Chunk) (e : String) (f : String)
    (h : consumeChunks chunks "" = .exhausted f) :
    generateAgentResponse chunks (some e) = .error ("streaming error: " ++ e) := by
  unfold generateAgentResponse
  rw [h]

theorem gar_of_exhausted_none (chunks : List Chunk) (f : String)
    (h : consumeChunks chunks "" = .exhausted f) :
    generateAgentResponse chunks none =
      (if f = "" then .error "no response received from agent" else .ok f) := by
  unfold generateAgentResponse
  rw [h]

/-- **C1** (amended): the turn consumer returns the last captured answer
candidate whenever the stream ends without an error — on `turn_complete` or by
exhausting the stream — with a non-empty candidate; otherwise it fails:
`"no response received from agent"` when the candidate is empty at a clean
end, an `"Agent error: …"` as soon as any chunk carries an explicit error
field (consumption stops immediately, regardless of later chunks and of the
transport), or a `"streaming error: …"` when the exhausted stream reports a
transport failure.  It never returns success with an empty answer. -/
theorem c1_turn_consumer_exit_contract :
    (∀ (chunks : List Chunk) (terr : Option String) (a : String),
        generateAgentResponse chunks terr = .ok a → a ≠ "") ∧
    (∀ (pre post : List Chunk) (ech : Chunk) (e : String) (terr : Option String),
        (∀ ch ∈ pre, cleanChunk ch) → ech.error = some e →
        generateAgentResponse (pre ++ ech :: post) terr =
          .error ("Agent error: " ++ e)) ∧
    (∀ (pre post : List Chunk) (tch : Chunk) (terr : Option String),
        (∀ ch ∈ pre, cleanChunk ch) → tch.error = none →
        tch.payload.eventType = "turn_complete" →
        generateAgentResponse (pre ++ tch :: post) terr =
          (if candidateAfter pre = "" then .error "no response received from agent"
           else .ok (candidateAfter pre))) ∧
    (∀ (chunks : List Chunk) (e : String),
        (∀ ch ∈ chunks, cleanChunk ch) →
        generateAgentResponse chunks (some e) = .error ("streaming error: " ++ e)) ∧
    (∀ (chunks : List Chunk),
        (∀ ch ∈ chunks, cleanChunk ch) →
        generateAgentResponse chunks none =
          (if candidateAfter chunks = "" then .error "no response received from agent"
           else .ok (candidateAfter chunks))) := by
  refine ⟨?_, ?_, ?_, ?_, ?_⟩
  · intro chunks terr a h
    cases hc : consumeChunks chunks "" with
    | errorBreak msg =>
      rw [gar_of_errorBreak chunks terr msg hc] at h
      exact Except.noConfusion h
    | turnCompleteExit f =>
      rw [gar_of_turnComplete chunks terr f hc] at h
      by_cases hf : f = ""
      · rw [if_pos hf] at h
        exact Except.noConfusion h
      · rw [if_neg hf] at h
        injection h with h2
        subst h2
        exact hf
    | exhausted f =>
      cases terr with
      | some e =>
        rw [gar_of_exhausted_some chunks e f hc] at h
        exact Except.noConfusion h
      | none =>
        rw [gar_of_exhausted_none chunks f hc] at h
        by_cases hf : f = ""
        · rw [if_pos hf] at h
          exact Except.noConfusion h
        · rw [if_neg hf] at h
          injection h with h2
          subst h2
          exact hf
  · intro pre post ech e terr hclean herr
    refine gar_of_errorBreak _ terr _ ?_
    rw [consumeChunks_append pre (ech :: post) hclean ""]
    simp [consumeChunks, herr]
  · intro pre post tch terr hclean herr hty
    refine gar_of_turnComplete _ terr _ ?_
    rw [consumeChunks_append pre (tch :: post) hclean ""]
    simp only [consumeChunks, herr]
    rw [if_pos hty]
    rfl
  · intro chunks e hclean
    exact gar_of_exhausted_some chunks e _ (consumeChunks_clean chunks hclean "")
  · intro chunks hclean
    exact gar_of_exhausted_none chunks _ (consumeChunks_clean chunks hclean "")

/-- Witness for C1: a stream with one assistant `step_complete` followed by
`turn_complete` yields the captured answer. -/
theorem c1_witness :
    generateAgentResponse ([assistantChunk "hi"] ++ turnCompleteChunk :: []) none =
      Except.ok "hi" := by
  rw [c1_turn_consumer_exit_contract.2.2.1 [assistantChunk "hi"] []
    turnCompleteChunk none (by decide) rfl rfl]
  rfl

/-- Counterexample to C1 as stated: the stream consisting of a single
assistant `step_complete` chunk ends by exhaustion — not on `turn_complete` —
with no error, yet the consumer returns success instead of failing. -/
theorem c1_counterexample :
    generateAgentResponse [assistantChunk "hi"] none = Except.ok "hi" ∧
    (assistantChunk "hi").payload.eventType ≠ "turn_complete" :=
  ⟨rfl, by decide⟩

/-- **C2**: the final answer equals the extracted content of the last
assistant-inference `step_complete` event before `turn_complete` — its plain
string content or the first non-empty item of its structured content list —
overwriting any earlier candidate; and inserting a `step_progress` or
tool-execution `step_complete` chunk anywhere in a stream never changes the
consumer's result. -/
theorem c2_last_assistant_step_wins :
    (∀ (pre mid post : List Chunk) (terr : Option String) (ach tch : Chunk)
        (c : String),
        (∀ ch ∈ pre, cleanChunk ch) →
        (∀ ch ∈ mid, ch.error = none ∧ nonContributing ch) →
        ach.error = none →
        ach.payload.eventType = "step_complete" →
        ach.payload.stepDetails.stepType = "inference" →
        ach.payload.stepDetails.modelResponse.role = "assistant" →
        extractContent ach.payload.stepDetails.modelResponse = some c →
        tch.error = none → tch.payload.eventType = "turn_complete" →
        generateAgentResponse (pre ++ ach :: (mid ++ tch :: post)) terr =
          Except.ok c) ∧
    (∀ (pre post : List Chunk) (ch : Chunk) (terr : Option String),
        ch.error = none → nonContributing ch →
        generateAgentResponse (pre ++ ch :: post) terr =
          generateAgentResponse (pre ++ post) terr) := by
  constructor
  · intro pre mid post terr ach tch c hpre hmid haerr haty hastep harole hext
      hterr htty
    have hmidclean : ∀ ch ∈ mid, cleanChunk ch := fun ch hch =>
      ⟨(hmid ch hch).1, nonContributing_not_terminal ch (hmid ch hch).2⟩
    have hupd : ∀ f, stepUpdate f ach = c := by
      intro f
      unfold stepUpdate
      rw [if_pos haty, if_pos ⟨hastep, harole⟩, hext]
    unfold generateAgentResponse
    rw [consumeChunks_append pre (ach :: (mid ++ tch :: post)) hpre ""]
    simp only [consumeChunks, haerr]
    rw [if_neg (by rw [haty]; decide), hupd,
      consumeChunks_append mid (tch :: post) hmidclean c,
      foldl_stepUpdate_const mid (fun ch hch => (hmid ch hch).2) c]
    simp only [consumeChunks, hterr]
    rw [if_pos htty]
    simp [extractContent_ne_empty _ _ hext]
  · intro pre post ch terr herr hnc
    unfold generateAgentResponse
    rw [consumeChunks_skip pre post ch "" herr hnc]

/-- Witness for C2: an earlier assistant answer "old" is overwritten by the
later one "new", and interleaved progress and tool-execution chunks do not
contribute. -/
theorem c2_witness :
    generateAgentResponse
      ([assistantChunk "old"] ++ assistantChunk "new" ::
        ([progressChunk, toolChunk] ++ turnCompleteChunk :: [])) none =
      Except.ok "new" :=
  c2_last_assistant_step_wins.1 [assistantChunk "old"] [progressChunk, toolChunk]
    [] none (assistantChunk "new") turnCompleteChunk "new" (by decide) (by decide)
    rfl rfl rfl rfl (by decide) rfl rfl

/-- **C3** (amended): on every path of the voice pipeline — success and each
failure branch — clearing the chat presence is executed before the run
terminates, and no presence-setting action follows it, so the presence state
after the run is always `cleared` (never stuck in recording); on the failure
branches, however, the fallback text send and the deferred file removals run
after the clear, so the clear is not literally the terminal step. -/
theorem c3_presence_always_cleared (env : VoiceEnv) (s : PresenceState) :
    presenceAfter s (processVoiceMessage env) = PresenceState.cleared ∧
    PAction.clearPresence ∈ processVoiceMessage env := by
  obtain ⟨fo, co, wo, ap, tr, ag, op, cw, fm, so⟩ := env
  cases fo <;> cases co <;> cases wo <;> cases tr <;> cases ag <;>
    rcases cw with _ | (_ | n) <;> cases fm <;> cases so <;>
      simp [processVoiceMessage, downloadVoiceMessage, textToSpeech,
        generateSpeechWithLocalService, presenceAfter, presenceStep]

/-- Counterexample to C3 as stated: when the media download fails, the run
does clear the presence but then sends the fallback text, so the trace's last
action is not the presence clear — clearing is not the terminal step. -/
theorem c3_counterexample :
    (processVoiceMessage envDownloadFail).getLast? ≠ some PAction.clearPresence ∧
    PAction.clearPresence ∈ processVoiceMessage envDownloadFail := by
  decide

/-- **C4**: evaluation at the failing input.  When the media fetch succeeds
and the target file is created but writing the downloaded bytes fails,
`downloadVoiceMessage` returns an error, the caller never registers the
deferred removal, and the run reaches its terminal state with the created
file still present — no removal of it ever appears in the trace. -/
theorem c4_download_write_failure_leaks_file :
    PAction.createFile "voice_1.ogg" ∈ processVoiceMessage envWriteFail ∧
    PAction.removeFile "voice_1.ogg" ∉ processVoiceMessage envWriteFail ∧
    "voice_1.ogg" ∈ runFs [] (processVoiceMessage envWriteFail) := by
  decide

/-- **C5**: when download, transcription and the agent turn succeed but
speech synthesis fails, the run sends the agent's reply text itself as a
plain message, clears the chat presence, and never invokes the audio sender. -/
theorem c5_synthesis_failure_graceful (env : VoiceEnv) (t r : String)
    (hf : env.fetchOk = true) (hc : env.createOk = true) (hw : env.writeOk = true)
    (ht : env.transcribe = Except.ok t) (ha : env.agent = Except.ok r)
    (htts : (generateSpeechWithLocalService env env.outputPath).2 = false) :
    PAction.sendText r ∈ processVoiceMessage env ∧
    PAction.clearPresence ∈ processVoiceMessage env ∧
    noAudioDelivery (processVoiceMessage env) = true := by
  obtain ⟨fo, co, wo, ap, tr, ag, op, cw, fm, so⟩ := env
  simp only at hf hc hw ht ha htts
  subst hf
  subst hc
  subst hw
  subst ht
  subst ha
  rcases cw with _ | (_ | n) <;> cases fm <;> cases so <;>
    simp_all [processVoiceMessage, downloadVoiceMessage, textToSpeech,
      generateSpeechWithLocalService, noAudioDelivery]

/-- Witness for C5 at a concrete environment whose TTS service call fails. -/
theorem c5_witness :
    PAction.sendText "the answer" ∈ processVoiceMessage envTtsFail ∧
    PAction.clearPresence ∈ processVoiceMessage envTtsFail ∧
    noAudioDelivery (processVoiceMessage envTtsFail) = true :=
  c5_synthesis_failure_graceful envTtsFail "hello there" "the answer"
    rfl rfl rfl rfl rfl rfl

/-- **C6**: the classifier selects exactly one branch by first-match
precedence (plain text, extended text, image, video, audio, document,
unknown) and the stored record's content is the text body for the text kinds,
the caption for image/video/document, the capitalized label
`"[Voice Message]"` or `"[Audio Message]"` chosen by the PTT flag for audio,
and `"[Unknown Message Type]"` for unknown payloads. -/
theorem c6_classifier_branches (info : MessageInfo) (msg : WAMessage) :
    (msg.conversation ≠ "" →
      (handleMessage info msg).1 = Branch.text ∧
      (handleMessage info msg).2.content = msg.conversation) ∧
    (∀ ext, msg.conversation = "" → msg.extendedTextMessage = some ext →
      (handleMessage info msg).1 = Branch.extendedText ∧
      (handleMessage info msg).2.content = ext.text) ∧
    (∀ im, msg.conversation = "" → msg.extendedTextMessage = none →
      msg.imageMessage = some im →
      (handleMessage info msg).1 = Branch.image ∧
      (handleMessage info msg).2.content = im.caption) ∧
    (∀ v, msg.conversation = "" → msg.extendedTextMessage = none →
      msg.imageMessage = none → msg.videoMessage = some v →
      (handleMessage info msg).1 = Branch.video ∧
      (handleMessage info msg).2.content = v.caption) ∧
    (∀ a, msg.conversation = "" → msg.extendedTextMessage = none →
      msg.imageMessage = none → msg.videoMessage = none →
      msg.audioMessage = some a →
      (handleMessage info msg).1 = Branch.audio ∧
      (handleMessage info msg).2.content =
        (if a.ptt then "[Voice Message]" else "[Audio Message]")) ∧
    (∀ d, msg.conversation = "" → msg.extendedTextMessage = none →
      msg.imageMessage = none → msg.videoMessage = none →
      msg.audioMessage = none → msg.documentMessage = some d →
      (handleMessage info msg).1 = Branch.document ∧
      (handleMessage info msg).2.content = d.caption ∧
      (handleMessage info msg).2.filename = d.fileName) ∧
    (msg.conversation = "" → msg.extendedTextMessage = none →
      msg.imageMessage = none → msg.videoMessage = none →
      msg.audioMessage = none → msg.documentMessage = none →
      (handleMessage info msg).1 = Branch.unknown ∧
      (handleMessage info msg).2.content = "[Unknown Message Type]") := by
  refine ⟨?_, ?_, ?_, ?_, ?_, ?_, ?_⟩
  · intro h
    simp [handleMessage, h]
  · intro ext h1 h2
    simp [handleMessage, h1, h2]
  · intro im h1 h2 h3
    simp [handleMessage, h1, h2, h3]
  · intro v h1 h2 h3 h4
    simp [handleMessage, h1, h2, h3, h4]
  · intro a h1 h2 h3 h4 h5
    cases hp : a.ptt <;>
      simp [handleMessage, h1, h2, h3, h4, h5, hp, audioContentLabel,
        capitalizeFirst]
  · intro d h1 h2 h3 h4 h5 h6
    simp [handleMessage, h1, h2, h3, h4, h5, h6]
  · intro h1 h2 h3 h4 h5 h6
    simp [handleMessage, h1, h2, h3, h4, h5, h6]

/-- Witness for C6: a PTT voice note is classified into the audio branch and
stored with the capitalized label. -/
theorem c6_witness :
    (handleMessage sampleInfo sampleVoiceMsg).1 = Branch.audio ∧
    (handleMessage sampleInfo sampleVoiceMsg).2.content = "[Voice Message]" := by
  have h := (c6_classifier_branches sampleInfo sampleVoiceMsg).2.2.2.2.1
    { ptt := true, seconds := 3, mimetype := "audio/ogg" } rfl rfl rfl rfl rfl
  exact ⟨h.1, h.2.trans rfl⟩

theorem StoreMessage_filter_eq (tbl : List StoredMessage) (m : StoredMessage) :
    List.filter (fun r => r.messageID == m.messageID) (StoreMessage tbl m) = [m] := by
  unfold StoreMessage
  induction tbl with
  | nil => simp
  | cons hd tl _ =>
    by_cases h : hd.messageID = m.messageID
    · simp [List.filter_cons, h]
    · simp [List.filter_cons, h]

/-- **C7**: storing two messages with the same message identity leaves exactly
one record with that identity — the second one; the first record's fields are
replaced and the first message is no longer present (unless the two are
identical). -/
theorem c7_upsert_idempotent (tbl : List StoredMessage) (m1 m2 : StoredMessage)
    (hid : m1.messageID = m2.messageID) :
    List.countP (fun r => r.messageID == m2.messageID)
        (StoreMessage (StoreMessage tbl m1) m2) = 1 ∧
    List.filter (fun r => r.messageID == m2.messageID)
        (StoreMessage (StoreMessage tbl m1) m2) = [m2] ∧
    (m1 ≠ m2 → m1 ∉ StoreMessage (StoreMessage tbl m1) m2) := by
  refine ⟨?_, StoreMessage_filter_eq _ m2, ?_⟩
  · rw [List.countP_eq_length_filter, StoreMessage_filter_eq]
    rfl
  · intro hne hmem
    have hmem2 : m1 ∈ List.filter (fun r => r.messageID == m2.messageID)
        (StoreMessage (StoreMessage tbl m1) m2) :=
      List.mem_filter.mpr ⟨hmem, by simp [hid]⟩
    rw [StoreMessage_filter_eq] at hmem2
    simp at hmem2
    exact hne hmem2

/-- Witness for C7: two deliveries of `MID1` on a table already holding
`MID0` leave exactly one `MID1` record, the second delivery. -/
theorem c7_witness :
    List.countP (fun r => r.messageID == sampleMessageB.messageID)
        (StoreMessage (StoreMessage [sampleOldMessage] sampleMessageA)
          sampleMessageB) = 1 ∧
    List.filter (fun r => r.messageID == sampleMessageB.messageID)
        (StoreMessage (StoreMessage [sampleOldMessage] sampleMessageA)
          sampleMessageB) = [sampleMessageB] ∧
    sampleMessageA ∉
      StoreMessage (StoreMessage [sampleOldMessage] sampleMessageA)
        sampleMessageB := by
  have h := c7_upsert_idempotent [sampleOldMessage] sampleMessageA sampleMessageB rfl
  exact ⟨h.1, h.2.1, h.2.2 (by decide)⟩

/-! ## Lemmas about the upload retry loop and the audio sender -/

theorem countUploads_uploadLoopAux (up : Nat → Bool) :
    ∀ (r a : Nat), countUploads (uploadLoopAux up a r).1 ≤ r := by
  intro r
  induction r with
  | zero => intro a; simp [uploadLoopAux, countUploads]
  | succ n ih =>
    intro a
    simp only [uploadLoopAux]
    by_cases h : up a
    · rw [if_pos h]
      simp [countUploads, List.countP_cons]
    · rw [if_neg h]
      by_cases hn : n = 0
      · rw [if_pos hn]
        simp [countUploads, List.countP_cons]
      · rw [if_neg hn]
        have := ih (a + 1)
        simp [countUploads, List.countP_cons] at this ⊢
        omega

theorem sleep_uploadLoopAux (up : Nat → Bool) :
    ∀ (r a n : Nat), SAction.sleepSeconds n ∈ (uploadLoopAux up a r).1 → n = 2 := by
  intro r
  induction r with
  | zero => intro a n h; simp [uploadLoopAux] at h
  | succ m ih =>
    intro a n h
    simp only [uploadLoopAux] at h
    by_cases hu : up a
    · rw [if_pos hu] at h
      simp at h
    · rw [if_neg hu] at h
      by_cases hm : m = 0
      · rw [if_pos hm] at h
        simp at h
      · rw [if_neg hm] at h
        simp only [List.mem_cons] at h
        rcases h with h | h | h
        · exact absurd h (by simp)
        · injection h
        · exact ih (a + 1) n h

theorem no_persist_uploadLoopAux (up : Nat → Bool) :
    ∀ (r a : Nat) (x : SAction),
      x ∈ (uploadLoopAux up a r).1 → isPersistAction x = false := by
  intro r
  induction r with
  | zero => intro a x h; simp [uploadLoopAux] at h
  | succ m ih =>
    intro a x h
    simp only [uploadLoopAux] at h
    by_cases hu : up a
    · rw [if_pos hu] at h
      simp at h
      subst h
      rfl
    · rw [if_neg hu] at h
      by_cases hm : m = 0
      · rw [if_pos hm] at h
        simp at h
        subst h
        rfl
      · rw [if_neg hm] at h
        simp only [List.mem_cons] at h
        rcases h with h | h | h
        · subst h; rfl
        · subst h; rfl
        · exact ih (a + 1) x h

theorem uploadWithRetry_allFail (up : Nat → Bool)
    (h1 : up 1 = false) (h2 : up 2 = false) (h3 : up 3 = false) :
    uploadWithRetry up =
      ([SAction.uploadAttempt 1, SAction.sleepSeconds 2, SAction.uploadAttempt 2,
        SAction.sleepSeconds 2, SAction.uploadAttempt 3], false) := by
  simp [uploadWithRetry, uploadLoopAux, h1, h2, h3]

/-- The four possible shapes of a `SendAudioMessage` trace: nothing (failure
before the upload), the upload attempts only, upload plus the send call, or
upload, send, store and chat update. -/
theorem SendAudioMessage_trace_cases (env : SendEnv) (tbl : List StoredMessage) :
    (SendAudioMessage env tbl).trace = [] ∨
    (SendAudioMessage env tbl).trace = (uploadWithRetry env.uploadOk).1 ∨
    (SendAudioMessage env tbl).trace =
      (uploadWithRetry env.uploadOk).1 ++
        [SAction.sendVoiceMessage (sendDuration env)] ∨
    (SendAudioMessage env tbl).trace =
      (uploadWithRetry env.uploadOk).1 ++
        [SAction.sendVoiceMessage (sendDuration env),
         SAction.storeSentMessage "[Voice Message]" "voice",
         SAction.updateChat "[Voice Message]"] := by
  simp only [SendAudioMessage]
  split_ifs <;> simp

/-- **C8**: the upload is attempted at most 3 times, every enforced delay is
the fixed 2-second sleep, a success at attempt 1, 2 or 3 stops the loop there,
and against a permanently failing uploader the attempt is made exactly 3
times with a total enforced delay of 4 seconds, after which the send fails. -/
theorem c8_upload_bounded_retry :
    (∀ (env : SendEnv) (tbl : List StoredMessage),
        countUploads (SendAudioMessage env tbl).trace ≤ 3) ∧
    (∀ (env : SendEnv) (tbl : List StoredMessage) (n : Nat),
        SAction.sleepSeconds n ∈ (SendAudioMessage env tbl).trace → n = 2) ∧
    (∀ up : Nat → Bool, up 1 = true →
        uploadWithRetry up = ([SAction.uploadAttempt 1], true)) ∧
    (∀ up : Nat → Bool, up 1 = false → up 2 = true →
        uploadWithRetry up =
          ([SAction.uploadAttempt 1, SAction.sleepSeconds 2,
            SAction.uploadAttempt 2], true)) ∧
    (∀ up : Nat → Bool, up 1 = false → up 2 = false → up 3 = true →
        uploadWithRetry up =
          ([SAction.uploadAttempt 1, SAction.sleepSeconds 2,
            SAction.uploadAttempt 2, SAction.sleepSeconds 2,
            SAction.uploadAttempt 3], true)) ∧
    (∀ (env : SendEnv) (tbl : List StoredMessage),
        env.ensureConnected = true → env.validJid = true → env.openOk = true →
        env.statOk = true → env.readOk = true →
        (∀ n, env.uploadOk n = false) →
        countUploads (SendAudioMessage env tbl).trace = 3 ∧
        totalSleep (SendAudioMessage env tbl).trace = 4 ∧
        (SendAudioMessage env tbl).err.isSome = true) := by
  refine ⟨?_, ?_, ?_, ?_, ?_, ?_⟩
  · intro env tbl
    have hle : countUploads (uploadWithRetry env.uploadOk).1 ≤ 3 :=
      countUploads_uploadLoopAux env.uploadOk 3 1
    rcases SendAudioMessage_trace_cases env tbl with h | h | h | h <;> rw [h]
    · simp [countUploads]
    · exact hle
    · simp only [countUploads, List.countP_append] at hle ⊢
      simp [List.countP_cons]
      omega
    · simp only [countUploads, List.countP_append] at hle ⊢
      simp [List.countP_cons]
      omega
  · intro env tbl n hmem
    rcases SendAudioMessage_trace_cases env tbl with h | h | h | h <;> rw [h] at hmem
    · simp at hmem
    · exact sleep_uploadLoopAux env.uploadOk 3 1 n hmem
    · rcases List.mem_append.mp hmem with hm | hm
      · exact sleep_uploadLoopAux env.uploadOk 3 1 n hm
      · simp at hm
    · rcases List.mem_append.mp hmem with hm | hm
      · exact sleep_uploadLoopAux env.uploadOk 3 1 n hm
      · simp at hm
  · intro up h1
    simp [uploadWithRetry, uploadLoopAux, h1]
  · intro up h1 h2
    simp [uploadWithRetry, uploadLoopAux, h1, h2]
  · intro up h1 h2 h3
    simp [uploadWithRetry, uploadLoopAux, h1, h2, h3]
  · intro env tbl h1 h2 h3 h4 h5 hfail
    have hup := uploadWithRetry_allFail env.uploadOk (hfail 1) (hfail 2) (hfail 3)
    simp [SendAudioMessage, h1, h2, h3, h4, h5, hup, countUploads, totalSleep,
      List.countP_cons]

/-- Witness for C8 against a permanently failing uploader. -/
theorem c8_witness :
    countUploads (SendAudioMessage sendEnvUploadFail []).trace = 3 ∧
    totalSleep (SendAudioMessage sendEnvUploadFail []).trace = 4 ∧
    (SendAudioMessage sendEnvUploadFail []).err.isSome = true :=
  c8_upload_bounded_retry.2.2.2.2.2 sendEnvUploadFail [] rfl rfl rfl rfl rfl
    (fun _ => rfl)

/-- **C9**: when the duration probe fails, the estimated duration used for
the outbound voice message is `max(1, sizeBytes / 16000)` seconds, and the
estimation is idempotent (a pure function of the size). -/
theorem c9_duration_estimate :
    (∀ sizeBytes : Nat,
        estimatedDuration sizeBytes = max 1 ((sizeBytes : ℚ) / 16000)) ∧
    (∀ sizeBytes : Nat,
        estimatedDuration sizeBytes = estimatedDuration sizeBytes) ∧
    (∀ env : SendEnv, env.probe = none →
        sendDuration env = estimatedDuration env.fileSize) := by
  refine ⟨?_, fun _ => rfl, ?_⟩
  · intro s
    unfold estimatedDuration
    rcases lt_or_le ((s : ℚ) / 16000) 1 with h | h
    · rw [if_pos h, max_eq_left h.le]
    · rw [if_neg (not_lt.mpr h), max_eq_right h]
  · intro env hp
    unfold sendDuration
    rw [hp]

/-- Witness for C9 at an environment whose ffprobe call fails. -/
theorem c9_witness :
    sendEnvNoProbe.probe = none ∧
    sendDuration sendEnvNoProbe = estimatedDuration sendEnvNoProbe.fileSize :=
  ⟨rfl, c9_duration_estimate.2.2 sendEnvNoProbe rfl⟩

/-- **C10**: if `SendAudioMessage` fails at any step before a successful send
— connection, recipient JID, file open/stat/read, exhausted upload, or the
send call itself — it returns an error, the store is unchanged and no
persistence action appears in the trace; conversely any persistence action in
the trace implies the send succeeded. -/
theorem c10_no_persistence_before_send (env : SendEnv) (tbl : List StoredMessage) :
    ((SendAudioMessage env tbl).err.isSome = true →
      (SendAudioMessage env tbl).table = tbl ∧
      ∀ a ∈ (SendAudioMessage env tbl).trace, isPersistAction a = false) ∧
    ((∃ a ∈ (SendAudioMessage env tbl).trace, isPersistAction a = true) →
      (SendAudioMessage env tbl).err = none) := by
  have hnp : ∀ x ∈ (uploadWithRetry env.uploadOk).1, isPersistAction x = false :=
    fun x hx => no_persist_uploadLoopAux env.uploadOk 3 1 x hx
  simp only [SendAudioMessage]
  split_ifs
  · exact ⟨fun _ => ⟨rfl, fun a ha => absurd ha (List.not_mem_nil a)⟩,
      fun hex => absurd hex (by simp)⟩
  · exact ⟨fun _ => ⟨rfl, fun a ha => absurd ha (List.not_mem_nil a)⟩,
      fun hex => absurd hex (by simp)⟩
  · exact ⟨fun _ => ⟨rfl, fun a ha => absurd ha (List.not_mem_nil a)⟩,
      fun hex => absurd hex (by simp)⟩
  · exact ⟨fun _ => ⟨rfl, fun a ha => absurd ha (List.not_mem_nil a)⟩,
      fun hex => absurd hex (by simp)⟩
  · exact ⟨fun _ => ⟨rfl, fun a ha => absurd ha (List.not_mem_nil a)⟩,
      fun hex => absurd hex (by simp)⟩
  · refine ⟨fun _ => ⟨rfl, fun a ha => hnp a ha⟩, fun hex => ?_⟩
    obtain ⟨a, ha, hpa⟩ := hex
    rw [hnp a ha] at hpa
    exact Bool.noConfusion hpa
  · refine ⟨fun _ => ⟨rfl, fun a ha => ?_⟩, fun hex => ?_⟩
    · rcases List.mem_append.mp ha with hm | hm
      · exact hnp a hm
      · simp at hm
        subst hm
        rfl
    · obtain ⟨a, ha, hpa⟩ := hex
      rcases List.mem_append.mp ha with hm | hm
      · rw [hnp a hm] at hpa
        exact Bool.noConfusion hpa
      · simp at hm
        subst hm
        simp [isPersistAction] at hpa
  · exact ⟨fun h => absurd h (by simp), fun _ => rfl⟩
  · exact ⟨fun h => absurd h (by simp), fun _ => rfl⟩

/-- Witness for C10: an invalid recipient JID makes the send fail and leaves
the store untouched. -/
theorem c10_witness :
    (SendAudioMessage sendEnvBadJid [sampleOldMessage]).table =
      [sampleOldMessage] ∧
    (SendAudioMessage sendEnvBadJid [sampleOldMessage]).err.isSome = true :=
  ⟨((c10_no_persistence_before_send sendEnvBadJid [sampleOldMessage]).1 rfl).1,
    rfl⟩

end WhatsAppMCP
